import Mathlib

set_option maxRecDepth 100000

/-!
Verification of the andross repository (blutorange/js-andross), a TypeScript
package of compile-time type declarations plus four numeric enumerations.

The only executable code in the package is the compiled enum module
(enum.js, produced from src/enum.ts).  We embed its runtime semantics
shallowly: JavaScript primitive values become an inductive type, objects
become association lists with JavaScript property-assignment semantics
(overwrite in place, append new keys), and the module body becomes a list
of statements interpreted in an Except monad so that the places where
JavaScript could throw (property writes on non-objects) are visible as
possible errors.  The declaration files (main.d.ts, enum.d.ts) are embedded
as lists of exported symbol names with their declaration kinds, and the
string-literal union types of main.d.ts as lists of strings.
-/

/-- JavaScript primitive runtime values, as far as the enum module needs
them.  The `closure` constructor represents function values; the source
never creates one, which is what lets the no-behavior claims be stated
non-vacuously. -/
inductive JSPrim where
  | undef
  | boolV (b : Bool)
  | num (n : Nat)
  | str (s : String)
  | closure (id : Nat)
  deriving DecidableEq

/-- A plain JavaScript object used as an enum lookup table: an ordered
association list from property keys to primitive values. -/
abbrev EnumTable := List (String × JSPrim)

/-- A runtime value appearing in the enum module: either a primitive or an
enum lookup-table object.  (Value semantics: the one object the module
creates per enum is uniquely referenced while it is populated, so
functional update is observationally equivalent to heap mutation.) -/
inductive JSValue where
  | prim (p : JSPrim)
  | table (t : EnumTable)
  deriving DecidableEq

/-- One own property of the CommonJS `exports` object: key, value and the
enumerable attribute (`Object.defineProperty` with only `value` given
creates a non-enumerable property; plain assignment an enumerable one). -/
structure ExportEntry where
  key : String
  value : JSValue
  enumerable : Bool
  deriving DecidableEq

/-- Property read on a table: JavaScript yields `undefined` for a missing
key. -/
def tblGet (t : EnumTable) (k : String) : JSPrim :=
  ((t.find? (fun p => p.1 == k)).map Prod.snd).getD JSPrim.undef

/-- Property write on a table: overwrite an existing key in place, append a
new key at the end (JavaScript property insertion order). -/
def tblSet (t : EnumTable) (k : String) (v : JSPrim) : EnumTable :=
  if t.any (fun p => p.1 == k) then
    t.map (fun p => if p.1 == k then (k, v) else p)
  else
    t ++ [(k, v)]

/-- The JavaScript ToPropertyKey conversion for the primitive values of
this development; the enum module only ever applies it to numbers. -/
def toPropertyKey : JSPrim → String
  | JSPrim.undef => "undefined"
  | JSPrim.boolV b => if b then "true" else "false"
  | JSPrim.num n => toString n
  | JSPrim.str s => s
  | JSPrim.closure _ => "function"

/-- JavaScript truthiness of a value, used by the compiled pattern
`exports.X || (exports.X = \x7b\x7d)`. -/
def truthy : JSValue → Bool
  | JSValue.prim JSPrim.undef => false
  | JSValue.prim (JSPrim.boolV b) => b
  | JSValue.prim (JSPrim.num n) => n != 0
  | JSValue.prim (JSPrim.str s) => s != ""
  | JSValue.prim (JSPrim.closure _) => true
  | JSValue.table _ => true

/-- Property write on an arbitrary value.  Writing to a table succeeds;
writing to `undefined` or to another primitive throws a TypeError in strict
mode, which the embedding surfaces as an error. -/
def writeMember (v : JSValue) (k : String) (w : JSPrim) : Except String JSValue :=
  match v with
  | JSValue.table t => Except.ok (JSValue.table (tblSet t k w))
  | JSValue.prim JSPrim.undef => Except.error "TypeError: cannot set properties of undefined"
  | JSValue.prim _ => Except.error "TypeError: cannot create a property on a primitive value"

/-- Read of `exports.k`: undefined when the property is missing. -/
def expGet (l : List ExportEntry) (k : String) : JSValue :=
  ((l.find? (fun e => e.key == k)).map ExportEntry.value).getD (JSValue.prim JSPrim.undef)

/-- Plain assignment `exports.k = v`: an existing property keeps its
attributes, a fresh one is created enumerable. -/
def expAssign (l : List ExportEntry) (k : String) (v : JSValue) : List ExportEntry :=
  if l.any (fun e => e.key == k) then
    l.map (fun e => if e.key == k then { e with value := v } else e)
  else
    l ++ [⟨k, v, true⟩]

/-- `Object.defineProperty(exports, k, \x7b value: v \x7d)`: creates or
reconfigures the property as non-enumerable. -/
def expDefine (l : List ExportEntry) (k : String) (v : JSValue) : List ExportEntry :=
  if l.any (fun e => e.key == k) then
    l.map (fun e => if e.key == k then ⟨k, v, false⟩ else e)
  else
    l ++ [⟨k, v, false⟩]

/-- Write to a module-local variable binding. -/
def localSet (l : List (String × JSValue)) (x : String) (v : JSValue) : List (String × JSValue) :=
  if l.any (fun p => p.1 == x) then
    l.map (fun p => if p.1 == x then (x, v) else p)
  else
    l ++ [(x, v)]

/-- Module evaluation state: the `exports` object and the module-local
`var` bindings of enum.js. -/
structure ModuleState where
  exportsProps : List ExportEntry
  locals : List (String × JSValue)
  deriving DecidableEq

/-- The statement forms occurring in the compiled enum module enum.js.
`enumIIFE x members` is the compiled enum pattern
`(function (X) \x7b X[X["m"] = i] = "m"; ... \x7d)(X = exports.X || (exports.X = \x7b\x7d));`
with one member assignment line per element of `members`, in order. -/
inductive Stmt where
  | exprString (s : String)
  | definePropertyValue (k : String) (v : JSValue)
  | varDecl (x : String)
  | enumIIFE (x : String) (members : List String)

/-- The body of one compiled enum IIFE: for the member at index `i` named
`m`, execute `X[X["m"] = i] = "m"`, i.e. first write `m ↦ i`, then write
`toPropertyKey i ↦ "m"`, threading the table through the fold. -/
def enumBody (arg : JSValue) (members : List String) : Except String JSValue :=
  members.enum.foldlM
    (fun v p => do
      let v1 ← writeMember v p.2 (JSPrim.num p.1)
      writeMember v1 (toPropertyKey (JSPrim.num p.1)) (JSPrim.str p.2))
    arg

/-- One step of the module interpreter.  A bare string expression statement
(the `"use strict"` directive) has no effect; `var x` binds `x` to
undefined; the enum IIFE evaluates its argument expression (reading
`exports.x`, creating an empty object when it is falsy), binds the local,
runs the body, and the final table is visible through both `exports.x` and
the local `x`, as it is in JavaScript where both reference one heap
object. -/
def execStmt (s : ModuleState) : Stmt → Except String ModuleState
  | Stmt.exprString _ => Except.ok s
  | Stmt.definePropertyValue k v =>
      Except.ok { s with exportsProps := expDefine s.exportsProps k v }
  | Stmt.varDecl x =>
      Except.ok { s with locals := localSet s.locals x (JSValue.prim JSPrim.undef) }
  | Stmt.enumIIFE x members => do
      let cur := expGet s.exportsProps x
      let (exps, arg) :=
        if truthy cur then (s.exportsProps, cur)
        else (expAssign s.exportsProps x (JSValue.table []), JSValue.table [])
      let ls := localSet s.locals x arg
      let result ← enumBody arg members
      Except.ok ⟨expAssign exps x result, localSet ls x result⟩

/-- Run a list of statements from a state. -/
def runProgram (p : List Stmt) (s : ModuleState) : Except String ModuleState :=
  p.foldlM execStmt s

/-- Member names of enum CardinalDirection4 in declaration order
(src/enum.ts). -/
def cardinalDirection4Names : List String :=
  ["North", "East", "South", "West"]

/-- Member names of enum CardinalDirection8 in declaration order
(src/enum.ts). -/
def cardinalDirection8Names : List String :=
  ["North", "Northeast", "East", "Southeast",
   "South", "Southwest", "West", "Northwest"]

/-- Member names of enum CardinalDirection16 in declaration order
(src/enum.ts). -/
def cardinalDirection16Names : List String :=
  ["North", "NorthNortheast", "Northeast", "EastNortheast",
   "East", "EastSoutheast", "Southeast", "SouthSoutheast",
   "South", "SouthSouthwest", "Southwest", "WestSouthwest",
   "West", "WestNorthwest", "Northwest", "NorthNorthwest"]

/-- Member names of enum CardinalDirection32 in declaration order
(src/enum.ts). -/
def cardinalDirection32Names : List String :=
  ["North", "NorthByEast", "NorthNortheast", "NortheastByNorth",
   "Northeast", "NortheastByEast", "EastNortheast", "EastByNorth",
   "East", "EastBySouth", "EastSoutheast", "SoutheastByEast",
   "Southeast", "SoutheastBySouth", "SouthSoutheast", "SouthByEast",
   "South", "SouthByWest", "SouthSouthwest", "SouthwestBySouth",
   "Southwest", "SouthwestByWest", "WestSouthwest", "WestBySouth",
   "West", "WestByNorth", "WestNorthwest", "NorthwestByWest",
   "Northwest", "NorthwestByNorth", "NorthNorthwest", "NorthByWest"]

/-- The lookup table a compiled enum declaration builds for the given
member list: for the member at index `i` named `m` it holds `m ↦ i` and
`toString i ↦ m`, in insertion order. -/
def mkEnum (names : List String) : EnumTable :=
  names.enum.foldl
    (fun t p =>
      tblSet (tblSet t p.2 (JSPrim.num p.1)) (toPropertyKey (JSPrim.num p.1)) (JSPrim.str p.2))
    []

/-- The runtime lookup table of enum CardinalDirection4. -/
def CardinalDirection4 : EnumTable := mkEnum cardinalDirection4Names

/-- The runtime lookup table of enum CardinalDirection8. -/
def CardinalDirection8 : EnumTable := mkEnum cardinalDirection8Names

/-- The runtime lookup table of enum CardinalDirection16. -/
def CardinalDirection16 : EnumTable := mkEnum cardinalDirection16Names

/-- The runtime lookup table of enum CardinalDirection32. -/
def CardinalDirection32 : EnumTable := mkEnum cardinalDirection32Names

/-- The statement sequence of the compiled enum module enum.js, in source
order: the strict-mode directive, the `__esModule` interop marker, and for
each of the four enums a `var` declaration followed by the compiled enum
IIFE. -/
def enumJsProgram : List Stmt :=
  [Stmt.exprString "use strict",
   Stmt.definePropertyValue "__esModule" (JSValue.prim (JSPrim.boolV true)),
   Stmt.varDecl "CardinalDirection4",
   Stmt.enumIIFE "CardinalDirection4" cardinalDirection4Names,
   Stmt.varDecl "CardinalDirection8",
   Stmt.enumIIFE "CardinalDirection8" cardinalDirection8Names,
   Stmt.varDecl "CardinalDirection16",
   Stmt.enumIIFE "CardinalDirection16" cardinalDirection16Names,
   Stmt.varDecl "CardinalDirection32",
   Stmt.enumIIFE "CardinalDirection32" cardinalDirection32Names]

/-- The state a CommonJS module starts from: an empty `exports` object and
no local bindings. -/
def initialState : ModuleState := ⟨[], []⟩

/-- Evaluation of the enum module. -/
def enumModuleRun : Except String ModuleState :=
  runProgram enumJsProgram initialState

/-- The executable statements contributed by every file of the repository
other than enum.js.  main.d.ts and enum.d.ts are declaration files, the
README is documentation and package.json is metadata; none of them
contains a statement, so this list is empty. -/
def restOfRepositoryProgram : List Stmt := []

/-- The exports object as it stands when the enum module initialisation
completes: the non-enumerable `__esModule` marker followed by the four
enum tables, each enumerable. -/
def enumModuleExports : List ExportEntry :=
  [⟨"__esModule", JSValue.prim (JSPrim.boolV true), false⟩,
   ⟨"CardinalDirection4", JSValue.table CardinalDirection4, true⟩,
   ⟨"CardinalDirection8", JSValue.table CardinalDirection8, true⟩,
   ⟨"CardinalDirection16", JSValue.table CardinalDirection16, true⟩,
   ⟨"CardinalDirection32", JSValue.table CardinalDirection32, true⟩]

/-- The module-local bindings after the enum module initialisation. -/
def enumModuleLocals : List (String × JSValue) :=
  [("CardinalDirection4", JSValue.table CardinalDirection4),
   ("CardinalDirection8", JSValue.table CardinalDirection8),
   ("CardinalDirection16", JSValue.table CardinalDirection16),
   ("CardinalDirection32", JSValue.table CardinalDirection32)]

/-- The module state at the completion of the enum module. -/
def enumModuleState : ModuleState := ⟨enumModuleExports, enumModuleLocals⟩

/-- The enumerable own property keys of an exports object, i.e. what
`Object.keys` and the named-export surface see. -/
def enumerableKeys (l : List ExportEntry) : List String :=
  (l.filter (fun e => e.enumerable)).map (fun e => e.key)

/-- All own property keys of an exports object. -/
def allKeys (l : List ExportEntry) : List String :=
  l.map (fun e => e.key)

/-- A primitive is plain data when it is a number or a string — the only
things an enum lookup table is supposed to hold. -/
def isDataPrim : JSPrim → Bool
  | JSPrim.num _ => true
  | JSPrim.str _ => true
  | _ => false

/-- A value carries no behavior when it is not a function and, when it is a
table, every property value is a plain number or string. -/
def hasNoBehavior : JSValue → Bool
  | JSValue.table t => t.all (fun kv => isDataPrim kv.2)
  | JSValue.prim (JSPrim.closure _) => false
  | JSValue.prim _ => true

/-- The kind of an exported declaration in the declaration files. -/
inductive DeclKind where
  | typeAlias
  | interfaceDecl
  | enumDecl
  deriving DecidableEq

/-- Every exported symbol of main.d.ts with its declaration kind, in file
order. -/
def mainModuleExports : List (String × DeclKind) :=
  [("Maybe", DeclKind.typeAlias),
   ("Voidable", DeclKind.typeAlias),
   ("Constructor", DeclKind.typeAlias),
   ("Builder", DeclKind.interfaceDecl),
   ("JSONPrimitiveValue", DeclKind.typeAlias),
   ("JSONObject", DeclKind.interfaceDecl),
   ("JSONArray", DeclKind.interfaceDecl),
   ("JSONCompoundValue", DeclKind.typeAlias),
   ("JSONValue", DeclKind.typeAlias),
   ("DeepPartial", DeclKind.typeAlias),
   ("Omit", DeclKind.typeAlias),
   ("RemoveFrom", DeclKind.typeAlias),
   ("PartialExcept", DeclKind.typeAlias),
   ("ReadonlyExcept", DeclKind.typeAlias),
   ("PartialFor", DeclKind.typeAlias),
   ("ReadonlyFor", DeclKind.typeAlias),
   ("RequiredFor", DeclKind.typeAlias),
   ("MatchingKeys", DeclKind.typeAlias),
   ("AssignableKeys", DeclKind.typeAlias),
   ("UnassignableKeys", DeclKind.typeAlias),
   ("PartialKeys", DeclKind.typeAlias),
   ("RequiredKeys", DeclKind.typeAlias),
   ("PickAssignable", DeclKind.typeAlias),
   ("PickMatching", DeclKind.typeAlias),
   ("PickPartial", DeclKind.typeAlias),
   ("PickRequired", DeclKind.typeAlias),
   ("Overwrite", DeclKind.typeAlias),
   ("DiscriminateUnion", DeclKind.typeAlias),
   ("UnionMap", DeclKind.typeAlias),
   ("Runnable", DeclKind.typeAlias),
   ("TypedFunction", DeclKind.typeAlias),
   ("TypedBiFunction", DeclKind.typeAlias),
   ("TypedTriFunction", DeclKind.typeAlias),
   ("ReversibleFunction", DeclKind.interfaceDecl),
   ("ReversibleBiFunction", DeclKind.interfaceDecl),
   ("ReversibleTriFunction", DeclKind.interfaceDecl),
   ("Supplier", DeclKind.typeAlias),
   ("BiSupplier", DeclKind.typeAlias),
   ("TriSupplier", DeclKind.typeAlias),
   ("Consumer", DeclKind.typeAlias),
   ("BiConsumer", DeclKind.typeAlias),
   ("TriConsumer", DeclKind.typeAlias),
   ("UnaryOperator", DeclKind.typeAlias),
   ("BinaryOperator", DeclKind.typeAlias),
   ("Predicate", DeclKind.typeAlias),
   ("BiPredicate", DeclKind.typeAlias),
   ("TriPredicate", DeclKind.typeAlias),
   ("Equator", DeclKind.typeAlias),
   ("Comparator", DeclKind.typeAlias),
   ("KeyExtractor", DeclKind.typeAlias),
   ("Single", DeclKind.typeAlias),
   ("Pair", DeclKind.typeAlias),
   ("Triple", DeclKind.typeAlias),
   ("Quadruple", DeclKind.typeAlias),
   ("Quintuple", DeclKind.typeAlias),
   ("Sextuple", DeclKind.typeAlias),
   ("Septuple", DeclKind.typeAlias),
   ("Octuple", DeclKind.typeAlias),
   ("Nonuple", DeclKind.typeAlias),
   ("Decuple", DeclKind.typeAlias),
   ("KeyValuePair", DeclKind.typeAlias),
   ("KeyValueEntry", DeclKind.interfaceDecl),
   ("StringObject", DeclKind.typeAlias),
   ("NumberObject", DeclKind.interfaceDecl),
   ("Comparable", DeclKind.interfaceDecl),
   ("Equatable", DeclKind.interfaceDecl),
   ("DeletableIterator", DeclKind.interfaceDecl),
   ("DeletableIterable", DeclKind.interfaceDecl),
   ("DeletableIterableIterator", DeclKind.interfaceDecl),
   ("Collector", DeclKind.interfaceDecl),
   ("MinMaxRectangle", DeclKind.interfaceDecl),
   ("Rectangle", DeclKind.interfaceDecl),
   ("Circle", DeclKind.interfaceDecl),
   ("RectSize", DeclKind.interfaceDecl),
   ("Vector1", DeclKind.interfaceDecl),
   ("Vector2", DeclKind.interfaceDecl),
   ("Vector3", DeclKind.interfaceDecl),
   ("Vector4", DeclKind.interfaceDecl),
   ("Vector5", DeclKind.interfaceDecl),
   ("CardinalDirection4", DeclKind.typeAlias),
   ("CardinalDirection8", DeclKind.typeAlias),
   ("CardinalDirection16", DeclKind.typeAlias),
   ("CardinalDirection32", DeclKind.typeAlias)]

/-- Every exported symbol of enum.d.ts with its declaration kind, in file
order. -/
def enumDtsExports : List (String × DeclKind) :=
  [("CardinalDirection4", DeclKind.enumDecl),
   ("CardinalDirection8", DeclKind.enumDecl),
   ("CardinalDirection16", DeclKind.enumDecl),
   ("CardinalDirection32", DeclKind.enumDecl)]

/-- The string-literal union type CardinalDirection4 of main.d.ts. -/
def mainCardinalDirection4 : List String :=
  ["North", "East", "South", "West"]

/-- The string-literal union type CardinalDirection8 of main.d.ts, built by
extending CardinalDirection4. -/
def mainCardinalDirection8 : List String :=
  mainCardinalDirection4 ++ ["Northeast", "Southeast", "Southwest", "Northwest"]

/-- The string-literal union type CardinalDirection16 of main.d.ts, built
by extending CardinalDirection8. -/
def mainCardinalDirection16 : List String :=
  mainCardinalDirection8 ++
    ["NorthNortheast", "EastNortheast", "EastSoutheast", "SouthSoutheast",
     "SouthSouthwest", "WestSouthwest", "WestNorthwest", "NorthNorthwest"]

/-- The string-literal union type CardinalDirection32 of main.d.ts, built
by extending CardinalDirection16. -/
def mainCardinalDirection32 : List String :=
  mainCardinalDirection16 ++
    ["NorthByEast", "NortheastByNorth", "NortheastByEast", "EastByNorth",
     "EastBySouth", "SoutheastByEast", "SoutheastBySouth", "SouthByEast",
     "SouthByWest", "SouthwestBySouth", "SouthwestByWest", "WestBySouth",
     "WestByNorth", "NorthwestByWest", "NorthwestByNorth", "NorthByWest"]

/-- The numeric value of the member named `d` in an enum table, zero when
absent. -/
def enumValue (t : EnumTable) (d : String) : Nat :=
  match tblGet t d with
  | JSPrim.num n => n
  | _ => 0

/-- The reverse-mapping keys a compiled enum of `n` members creates: the
decimal string forms of 0 to n-1. -/
def reverseKeys (names : List String) : List String :=
  (List.range names.length).map (fun i => toPropertyKey (JSPrim.num i))

/-- Decides that the table built for `names` is the bidirectional enum
map: 2n entries with pairwise distinct keys, the key set is exactly the
member names together with the reverse keys, the member at index i maps to
i and i maps back to the member name, and both round trips close. -/
def bidirectionalCheck (names : List String) : Bool :=
  let t := mkEnum names
  let keys := t.map Prod.fst
  let expected := names ++ reverseKeys names
  t.length == 2 * names.length &&
  keys == keys.dedup &&
  keys.all (fun k => expected.contains k) &&
  expected.all (fun k => keys.contains k) &&
  names.enum.all (fun p =>
    tblGet t p.2 == JSPrim.num p.1 &&
    tblGet t (toPropertyKey (JSPrim.num p.1)) == JSPrim.str p.2) &&
  names.all (fun s => tblGet t (toPropertyKey (tblGet t s)) == JSPrim.str s) &&
  (List.range names.length).all (fun v =>
    tblGet t (toPropertyKey (tblGet t (toPropertyKey (JSPrim.num v)))) == JSPrim.num v)

/-- Decides that the members of `names` are assigned the consecutive
values 0 to n-1 in declaration order by the compiled enum table. -/
def consecutiveFromZero (names : List String) : Bool :=
  names.enum.all (fun p => tblGet (mkEnum names) p.2 == JSPrim.num p.1)

/-- Claim C1: every exported symbol of the library is either a
compile-time-only declaration — a type alias or an interface, erased during
compilation — or one of the four numeric enumerations CardinalDirection4,
CardinalDirection8, CardinalDirection16, CardinalDirection32; evaluating
the only runtime module produces exactly those enumerations as runtime
artifacts, and every enumerable runtime export is a lookup table holding
only plain numbers and strings, so no behavior is attached to any of
them. -/
theorem claim1_exports_compile_time_or_enum :
    (mainModuleExports.all (fun p =>
      p.2 == DeclKind.typeAlias || p.2 == DeclKind.interfaceDecl)) = true ∧
    enumDtsExports.map Prod.fst =
      ["CardinalDirection4", "CardinalDirection8",
       "CardinalDirection16", "CardinalDirection32"] ∧
    (enumDtsExports.all (fun p => p.2 == DeclKind.enumDecl)) = true ∧
    enumModuleRun = Except.ok enumModuleState ∧
    enumerableKeys enumModuleState.exportsProps =
      ["CardinalDirection4", "CardinalDirection8",
       "CardinalDirection16", "CardinalDirection32"] ∧
    (enumModuleState.exportsProps.all (fun e =>
      !e.enumerable || hasNoBehavior e.value)) = true :=
  ⟨by decide, rfl, by decide, rfl, rfl, by decide⟩

/-- Claim C2: for each N in 4, 8, 16, 32 the enumeration CardinalDirectionN
has exactly N distinct named members, the member at declaration position i
is assigned the numeric value i (so the values are the consecutive
integers 0 to N-1 in declaration order), and North is assigned 0 in every
one of the four enumerations. -/
theorem claim2_enum_members_consecutive_from_zero :
    cardinalDirection4Names.length = 4 ∧ cardinalDirection4Names.Nodup ∧
    consecutiveFromZero cardinalDirection4Names = true ∧
    tblGet CardinalDirection4 "North" = JSPrim.num 0 ∧
    cardinalDirection8Names.length = 8 ∧ cardinalDirection8Names.Nodup ∧
    consecutiveFromZero cardinalDirection8Names = true ∧
    tblGet CardinalDirection8 "North" = JSPrim.num 0 ∧
    cardinalDirection16Names.length = 16 ∧ cardinalDirection16Names.Nodup ∧
    consecutiveFromZero cardinalDirection16Names = true ∧
    tblGet CardinalDirection16 "North" = JSPrim.num 0 ∧
    cardinalDirection32Names.length = 32 ∧ cardinalDirection32Names.Nodup ∧
    consecutiveFromZero cardinalDirection32Names = true ∧
    tblGet CardinalDirection32 "North" = JSPrim.num 0 := by
  decide

/-- Claim C3: evaluating the enum module — the only executable code of the
repository — succeeds and never throws: the interpreter, in which every
property write on a non-object surfaces as an error, returns the final
state rather than an error.  The statement type contains no input, output
or exception-handling construct, because the source contains none. -/
theorem claim3_enum_module_evaluation_succeeds :
    enumModuleRun = Except.ok enumModuleState := by rfl

/-- Claim C4: the repository maintains no mutable global state after the
enum module initialises.  Every source file other than enum.js is
declaration-only, so the statements the repository executes after the
module completes are the empty list, running them leaves the state
untouched, and each exported enum still holds exactly the lookup table
built at initialisation, so every later read of a member returns the value
assigned then. -/
theorem claim4_no_mutation_after_initialisation :
    runProgram restOfRepositoryProgram enumModuleState = Except.ok enumModuleState ∧
    expGet enumModuleState.exportsProps "CardinalDirection4" =
      JSValue.table (mkEnum cardinalDirection4Names) ∧
    expGet enumModuleState.exportsProps "CardinalDirection8" =
      JSValue.table (mkEnum cardinalDirection8Names) ∧
    expGet enumModuleState.exportsProps "CardinalDirection16" =
      JSValue.table (mkEnum cardinalDirection16Names) ∧
    expGet enumModuleState.exportsProps "CardinalDirection32" =
      JSValue.table (mkEnum cardinalDirection32Names) :=
  ⟨rfl, rfl, rfl, rfl, rfl⟩

/-- Claim C5: the runtime interface of the package is exactly the four
CardinalDirection enumerations and their members.  The enumerable export
keys — the named-export surface, what Object.keys sees — are exactly the
four enum names; the only other own property of the exports object is the
non-enumerable module-format marker __esModule holding the boolean true;
each enum export is its lookup table; and no export carries a function, so
no function, class, wire format, file format or CLI is exposed. -/
theorem claim5_runtime_interface_is_the_four_enums :
    enumerableKeys enumModuleState.exportsProps =
      ["CardinalDirection4", "CardinalDirection8",
       "CardinalDirection16", "CardinalDirection32"] ∧
    allKeys enumModuleState.exportsProps =
      ["__esModule", "CardinalDirection4", "CardinalDirection8",
       "CardinalDirection16", "CardinalDirection32"] ∧
    expGet enumModuleState.exportsProps "__esModule" =
      JSValue.prim (JSPrim.boolV true) ∧
    expGet enumModuleState.exportsProps "CardinalDirection4" =
      JSValue.table CardinalDirection4 ∧
    expGet enumModuleState.exportsProps "CardinalDirection8" =
      JSValue.table CardinalDirection8 ∧
    expGet enumModuleState.exportsProps "CardinalDirection16" =
      JSValue.table CardinalDirection16 ∧
    expGet enumModuleState.exportsProps "CardinalDirection32" =
      JSValue.table CardinalDirection32 ∧
    (enumModuleState.exportsProps.all (fun e => hasNoBehavior e.value)) = true :=
  ⟨rfl, rfl, rfl, rfl, rfl, rfl, rfl, by decide⟩

/-- Claim C6: each enum lookup table is a bidirectional bijection.  For
each N in 4, 8, 16, 32, the table has exactly 2N entries with pairwise
distinct keys, the key set is exactly the N member names together with the
N decimal value strings, each member name maps to its value and each value
back to the name, and both round trips (name to value to name, and value
to name to value) close. -/
theorem claim6_enum_tables_bidirectional :
    bidirectionalCheck cardinalDirection4Names = true ∧
    bidirectionalCheck cardinalDirection8Names = true ∧
    bidirectionalCheck cardinalDirection16Names = true ∧
    bidirectionalCheck cardinalDirection32Names = true := by
  decide

/-- Claim C7: the four enumerations embed into one another by value
doubling.  Every member name of the coarser enumeration is also a member
of the next finer one, and its numeric value there is exactly twice its
value in the coarser enumeration, so a shared name denotes the same
compass bearing in all four enums. -/
theorem claim7_value_doubling_embeddings :
    (∀ d ∈ cardinalDirection4Names, d ∈ cardinalDirection8Names ∧
      enumValue CardinalDirection8 d = 2 * enumValue CardinalDirection4 d) ∧
    (∀ d ∈ cardinalDirection8Names, d ∈ cardinalDirection16Names ∧
      enumValue CardinalDirection16 d = 2 * enumValue CardinalDirection8 d) ∧
    (∀ d ∈ cardinalDirection16Names, d ∈ cardinalDirection32Names ∧
      enumValue CardinalDirection32 d = 2 * enumValue CardinalDirection16 d) := by
  decide

/-- Witness for claim C7: the doubling law instantiated at the concrete
shared members East, Southwest and WestNorthwest. -/
theorem claim7_value_doubling_embeddings_witness :
    ("East" ∈ cardinalDirection4Names ∧
      enumValue CardinalDirection8 "East" = 2 * enumValue CardinalDirection4 "East") ∧
    ("Southwest" ∈ cardinalDirection8Names ∧
      enumValue CardinalDirection16 "Southwest" = 2 * enumValue CardinalDirection8 "Southwest") ∧
    ("WestNorthwest" ∈ cardinalDirection16Names ∧
      enumValue CardinalDirection32 "WestNorthwest" = 2 * enumValue CardinalDirection16 "WestNorthwest") :=
  ⟨⟨by decide, (claim7_value_doubling_embeddings.1 "East" (by decide)).2⟩,
   ⟨by decide, (claim7_value_doubling_embeddings.2.1 "Southwest" (by decide)).2⟩,
   ⟨by decide, (claim7_value_doubling_embeddings.2.2 "WestNorthwest" (by decide)).2⟩⟩

/-- Claim C8: for each N in 4, 8, 16, 32 the string-literal union type
CardinalDirectionN of main.d.ts consists of exactly the N member names of
the numeric enum CardinalDirectionN of enum.ts — each union list is a
permutation of the corresponding member-name list, and both are
duplicate-free, so the two representations agree on the same set of
names. -/
theorem claim8_union_types_match_enum_member_names :
    mainCardinalDirection4.Perm cardinalDirection4Names ∧
    mainCardinalDirection8.Perm cardinalDirection8Names ∧
    mainCardinalDirection16.Perm cardinalDirection16Names ∧
    mainCardinalDirection32.Perm cardinalDirection32Names := by
  decide
